import Mathlib

/-!
Verification of the role-based access control core of the LCA-tool backend
(users app: permissions.py, decorators.py, serializers.py, views.py, models.py).

A request principal is modelled as `Option UserRec`: `some u` is an
authenticated user record, `none` is the anonymous (unauthenticated) user.
Role strings, the hierarchy table, HTTP safe methods and the permission
predicates are transcribed from the Python source.
-/

namespace LCARbac

/-- A stored user record (users/models.py `User`): identity plus a single
role string. Django model instances compare equal exactly when their
primary keys agree, so identity is the `id` field. -/
structure UserRec where
  id : Nat
  username : String
  role : String
deriving Repr, DecidableEq

/-- `ROLE_HIERARCHY` dict from users/permissions.py, as an association list. -/
def ROLE_HIERARCHY : List (String × Nat) :=
  [("admin", 3), ("metallurgist", 2), ("engineer", 1)]

/-- Python `ROLE_HIERARCHY.get(r, 0)`: association-list lookup with default 0. -/
def hierarchyGet (r : String) : Nat :=
  (ROLE_HIERARCHY.lookup r).getD 0

/-- `ROLE_CHOICES` on the `User` model (users/models.py): the closed role set. -/
def ROLE_CHOICES : List String := ["engineer", "metallurgist", "admin"]

/-- `permissions.SAFE_METHODS` of the REST framework: read-only HTTP methods. -/
def SAFE_METHODS : List String := ["GET", "HEAD", "OPTIONS"]

/-- `MinimumRolePermission.has_permission` (users/permissions.py): deny the
anonymous user, otherwise compare hierarchy levels with default 0. -/
def minimumRoleHasPermission (u : Option UserRec) (minimum_role : String) : Bool :=
  match u with
  | none => false
  | some user => decide (hierarchyGet minimum_role ≤ hierarchyGet user.role)

/-- `RoleBasedPermission.has_permission` (users/permissions.py): deny the
anonymous user; an empty requirement list means no restriction. -/
def roleBasedHasPermission (required_roles : List String) (u : Option UserRec) : Bool :=
  match u with
  | none => false
  | some user =>
      if required_roles.isEmpty then true
      else required_roles.contains user.role

/-- Outcome of a route guard (users/decorators.py): pass control through,
or short-circuit with a structured rejection. -/
inductive GuardOutcome where
  /-- The wrapped view function runs. -/
  | proceed
  /-- JSON 401 response with message Authentication required. -/
  | authenticationRequired
  /-- JSON 403 response carrying the required roles and the actual role. -/
  | insufficientRole (required : List String) (actual : String)
  /-- JSON 403 response carrying the minimum role and the actual role. -/
  | insufficientRoleLevel (minimumRole : String) (actual : String)
deriving Repr, DecidableEq

/-- `role_required(*roles)` decorator (users/decorators.py lines 12-33):
the wrapped view returns 401 for an unauthenticated request, 403 with the
required and actual roles when the role is outside the allow-list, and
otherwise calls through. -/
def role_required (roles : List String) (u : Option UserRec) : GuardOutcome :=
  match u with
  | none => .authenticationRequired
  | some user =>
      if roles.contains user.role then .proceed
      else .insufficientRole roles user.role

/-- `api_role_required(*roles)` decorator (users/decorators.py lines 220-240):
same decision logic as `role_required`, for REST framework views. -/
def api_role_required (roles : List String) (u : Option UserRec) : GuardOutcome :=
  match u with
  | none => .authenticationRequired
  | some user =>
      if roles.contains user.role then .proceed
      else .insufficientRole roles user.role

/-- `minimum_role_required(minimum_role)` decorator (users/decorators.py
lines 36-61): 401 when unauthenticated, 403 when the hierarchy level of the
user role (default 0) is below that of the minimum role (default 0). -/
def minimum_role_required (minimum_role : String) (u : Option UserRec) : GuardOutcome :=
  match u with
  | none => .authenticationRequired
  | some user =>
      if hierarchyGet user.role < hierarchyGet minimum_role then
        .insufficientRoleLevel minimum_role user.role
      else .proceed

/-- `CanUploadDatasets.has_permission` (users/permissions.py lines 43-57):
safe methods need only authentication; writes need metallurgist or admin. -/
def canUploadDatasets (method : String) (u : Option UserRec) : Bool :=
  if SAFE_METHODS.contains method then u.isSome
  else
    match u with
    | none => false
    | some user => ["metallurgist", "admin"].contains user.role

/-- `CanManageAIModels.has_permission` (users/permissions.py lines 72-86):
safe methods need only authentication; writes need metallurgist or admin. -/
def canManageAIModels (method : String) (u : Option UserRec) : Bool :=
  if SAFE_METHODS.contains method then u.isSome
  else
    match u with
    | none => false
    | some user => ["metallurgist", "admin"].contains user.role

/-- `CanManageUsers.has_permission` (users/permissions.py lines 106-120):
safe methods need only authentication; writes need the admin role. -/
def canManageUsers (method : String) (u : Option UserRec) : Bool :=
  if SAFE_METHODS.contains method then u.isSome
  else
    match u with
    | none => false
    | some user => user.role == "admin"

/-- A stored resource row carrying its `created_by` owner reference
(user id), per the ownership relation used by `OwnershipMixin`. -/
structure Resource where
  rid : Nat
  created_by : Nat
deriving Repr, DecidableEq

/-- `OwnershipMixin.get_queryset` (users/decorators.py lines 199-211):
anonymous gets the empty queryset, admin gets the base queryset, and any
other user gets the rows whose `created_by` is that user. -/
def ownershipGetQueryset (base : List Resource) (u : Option UserRec) : List Resource :=
  match u with
  | none => []
  | some user =>
      if user.role == "admin" then base
      else base.filter (fun x => x.created_by == user.id)

/-- Whether the principal is an authenticated user with the admin role
(the `request.user.role == admin` test guarded by authentication). -/
def isAdminPrincipal (u : Option UserRec) : Bool :=
  match u with
  | none => false
  | some user => user.role == "admin"

/-- Whether a resource's `created_by` reference is the given principal;
false for the anonymous principal, which is never a stored owner. -/
def createdByPrincipal (x : Resource) (u : Option UserRec) : Bool :=
  match u with
  | none => false
  | some user => x.created_by == user.id

/-- Client-submitted resource data as validated by a serializer: a payload
plus an optional client-supplied `created_by` owner value. -/
structure SubmittedResource where
  rid : Nat
  created_by : Option Nat
deriving Repr, DecidableEq

/-- REST framework `serializer.save(**kwargs)` on create: the keyword
arguments are merged over the validated data and win on conflict, so a
`created_by` keyword replaces any client-supplied owner. -/
def serializerSaveCreate (validated : SubmittedResource)
    (kwargs_created_by : Option Nat) : SubmittedResource :=
  { validated with
    created_by :=
      match kwargs_created_by with
      | some o => some o
      | none => validated.created_by }

/-- `OwnershipMixin.perform_create` (users/decorators.py lines 213-217):
save with the requesting user passed as the `created_by` keyword. -/
def perform_create (validated : SubmittedResource) (user : UserRec) : SubmittedResource :=
  serializerSaveCreate validated (some user.id)

/-- Outcome of a DELETE on `UserManagementView` (users/views.py): the
layered enforcement can reject at authentication, at the role mixin, at
the permission class, or at the self-deletion check in `delete`. -/
inductive DeleteOutcome where
  /-- 401 from `RoleBasedViewMixin.dispatch` for an anonymous request. -/
  | authenticationRequired
  /-- 403 from `AdminOnlyMixin` carrying required and actual roles. -/
  | insufficientRole (required : List String) (actual : String)
  /-- 403 permission denied from the `CanManageUsers` permission class. -/
  | forbidden
  /-- 400 response Cannot delete your own account. -/
  | selfDeletionError
  /-- The target user row is deleted. -/
  | deleted
deriving Repr, DecidableEq

/-- DELETE on `UserManagementView` (users/views.py lines 163-192): the
`AdminOnlyMixin` dispatch check (required_roles = [admin]), then the
`CanManageUsers` permission for the non-safe DELETE method, then the
self-deletion check `self.get_object() == request.user`, which for Django
model instances compares primary keys. -/
def userManagementDelete (u : Option UserRec) (target : UserRec) : DeleteOutcome :=
  match u with
  | none => .authenticationRequired
  | some user =>
      if ["admin"].contains user.role then
        if canManageUsers "DELETE" (some user) then
          if target.id == user.id then .selfDeletionError
          else .deleted
        else .forbidden
      else .insufficientRole ["admin"] user.role

/-- Client-submitted registration data (fields of `RegisterSerializer`,
users/serializers.py lines 10-29). -/
structure RegisterData where
  username : String
  email : String
  password : String
  password2 : String
  role : String
deriving Repr, DecidableEq

/-- Result of running `RegisterSerializer` validation and create. -/
inductive RegisterResult where
  /-- 400 response carrying the validation error. -/
  | validationError (msg : String)
  /-- 201 response: the created user row. -/
  | created (u : UserRec)
deriving Repr, DecidableEq

/-- `RegisterSerializer` (users/serializers.py lines 10-29) driven by the
`RegisterView` create flow: the model serializer validates the `role`
field against the model `ROLE_CHOICES`, the object-level `validate`
requires the two passwords to match, and `create` stores the validated
data, role included, verbatim via `create_user`. -/
def registerSerializerCreate (nextId : Nat) (d : RegisterData) : RegisterResult :=
  if ROLE_CHOICES.contains d.role then
    if d.password == d.password2 then
      .created { id := nextId, username := d.username, role := d.role }
    else .validationError "Passwords do not match."
  else .validationError "invalid role choice"

/-- `permissions.AllowAny`, the permission class on `RegisterView`
(users/views.py line 40): permits every request, authenticated or not. -/
def allowAnyHasPermission (_u : Option UserRec) : Bool := true

/-- The role-level table of the specification (engineer 1, metallurgist 2,
admin 3, undefined outside the closed set), stated from the spec text for
comparison with the hierarchy lookup of the source. -/
def roleLevelSpec (r : String) : Option Nat :=
  if r == "engineer" then some 1
  else if r == "metallurgist" then some 2
  else if r == "admin" then some 3
  else none

/-- A role string outside the closed set has no entry in `ROLE_HIERARCHY`,
so the Python `dict.get` lookup yields the default 0. -/
theorem hierarchyGet_eq_zero_of_not_mem (r : String) (hr : r ∉ ROLE_CHOICES) :
    hierarchyGet r = 0 := by
  simp only [ROLE_CHOICES, List.mem_cons, List.not_mem_nil, or_false] at hr
  push_neg at hr
  obtain ⟨h1, h2, h3⟩ := hr
  simp [hierarchyGet, ROLE_HIERARCHY, List.lookup,
    beq_eq_false_iff_ne.mpr h1, beq_eq_false_iff_ne.mpr h2, beq_eq_false_iff_ne.mpr h3]

/-- C3: for every role allow-list, required-roles list and minimum role, the
absent (unauthenticated) principal is rejected by every guard with the
authentication-required 401 outcome, never with a role-specific deny. -/
theorem unauthenticated_always_authentication_required
    (roles required_roles : List String) (minimum_role : String) :
    role_required roles none = GuardOutcome.authenticationRequired ∧
    api_role_required roles none = GuardOutcome.authenticationRequired ∧
    minimum_role_required minimum_role none = GuardOutcome.authenticationRequired ∧
    roleBasedHasPermission required_roles none = false :=
  ⟨rfl, rfl, rfl, rfl⟩

/-- C10: the ownership-scoped listing is idempotent: filtering an already
filtered collection with the same principal changes nothing. -/
theorem ownership_filter_idempotent (base : List Resource) (u : Option UserRec) :
    ownershipGetQueryset (ownershipGetQueryset base u) u = ownershipGetQueryset base u := by
  cases u with
  | none => rfl
  | some user =>
      by_cases h : user.role == "admin"
      · simp [ownershipGetQueryset, h]
      · simp only [ownershipGetQueryset, h]
        rw [if_neg (by simp [h]), if_neg (by simp [h]), List.filter_filter]
        simp

/-- C2: the ownership-scoped listing returns the whole collection for an
admin principal, and for any other principal exactly the resources whose
created_by is that principal; in particular a resource not created by a
non-admin principal is never in the listing. -/
theorem ownership_scoped_listing (base : List Resource) (u : Option UserRec) :
    (isAdminPrincipal u = true → ownershipGetQueryset base u = base) ∧
    (isAdminPrincipal u = false →
      ownershipGetQueryset base u = base.filter (fun x => createdByPrincipal x u)) ∧
    ∀ x : Resource, isAdminPrincipal u = false → createdByPrincipal x u = false →
      x ∉ ownershipGetQueryset base u := by
  cases u with
  | none =>
      refine ⟨?_, ?_, ?_⟩
      · intro h; simp [isAdminPrincipal] at h
      · intro _; simp [ownershipGetQueryset, createdByPrincipal]
      · intro x _ _; simp [ownershipGetQueryset]
  | some user =>
      by_cases h : user.role == "admin"
      · refine ⟨fun _ => ?_, ?_, ?_⟩
        · simp [ownershipGetQueryset, h]
        · intro hna; simp [isAdminPrincipal, h] at hna
        · intro x hna; simp [isAdminPrincipal, h] at hna
      · refine ⟨?_, fun _ => ?_, ?_⟩
        · intro ha; simp [isAdminPrincipal, h] at ha
        · simp [ownershipGetQueryset, h, createdByPrincipal]
        · intro x _ hx
          simp only [createdByPrincipal] at hx
          simp [ownershipGetQueryset, h, List.mem_filter, hx]

/-- Witness for C2 at a concrete input: an engineer principal never sees a
resource created by another user. -/
theorem ownership_scoped_listing_witness :
    isAdminPrincipal (some { id := 1, username := "eve", role := "engineer" }) = false ∧
    createdByPrincipal { rid := 10, created_by := 2 }
      (some { id := 1, username := "eve", role := "engineer" }) = false ∧
    { rid := 10, created_by := 2 } ∉
      ownershipGetQueryset [{ rid := 10, created_by := 2 }]
        (some { id := 1, username := "eve", role := "engineer" }) :=
  ⟨by decide, by decide,
    (ownership_scoped_listing [{ rid := 10, created_by := 2 }]
      (some { id := 1, username := "eve", role := "engineer" })).2.2
      { rid := 10, created_by := 2 } (by decide) (by decide)⟩

/-- C7: for an authenticated principal and an explicit role allow-list, both
allow-list guards pass exactly when the role is in the list, and otherwise
deny with a payload carrying the required list and the actual role. -/
theorem allow_list_guard_decision (user : UserRec) (roles : List String) :
    (role_required roles (some user) = GuardOutcome.proceed ↔ user.role ∈ roles) ∧
    (api_role_required roles (some user) = GuardOutcome.proceed ↔ user.role ∈ roles) ∧
    (user.role ∉ roles →
      role_required roles (some user) = GuardOutcome.insufficientRole roles user.role ∧
      api_role_required roles (some user) = GuardOutcome.insufficientRole roles user.role) := by
  by_cases h : user.role ∈ roles
  · simp [role_required, api_role_required, h]
  · simp [role_required, api_role_required, h]

/-- Witness for C7 at a concrete input: an engineer is denied the
admin-only action with the required and actual roles in the payload. -/
theorem allow_list_guard_decision_witness :
    "engineer" ∉ ["admin"] ∧
    role_required ["admin"] (some { id := 4, username := "eng", role := "engineer" }) =
      GuardOutcome.insufficientRole ["admin"] "engineer" ∧
    api_role_required ["admin"] (some { id := 4, username := "eng", role := "engineer" }) =
      GuardOutcome.insufficientRole ["admin"] "engineer" :=
  ⟨by decide,
    (allow_list_guard_decision { id := 4, username := "eng", role := "engineer" }
      ["admin"]).2.2 (by decide)⟩

/-- C8: the dataset-upload and AI-model checks permit every authenticated
principal on safe methods regardless of role, and permit non-safe methods
exactly for the metallurgist and admin roles. -/
theorem safe_method_read_access (method : String) (user : UserRec) :
    (method ∈ SAFE_METHODS →
      canUploadDatasets method (some user) = true ∧
      canManageAIModels method (some user) = true) ∧
    (method ∉ SAFE_METHODS →
      (canUploadDatasets method (some user) = true ↔
        user.role ∈ ["metallurgist", "admin"]) ∧
      (canManageAIModels method (some user) = true ↔
        user.role ∈ ["metallurgist", "admin"])) := by
  by_cases h : method ∈ SAFE_METHODS
  · simp [canUploadDatasets, canManageAIModels, h]
  · simp [canUploadDatasets, canManageAIModels, h]

/-- Witness for C8 at concrete inputs: an engineer may GET but not POST on
the dataset-upload and AI-model checks. -/
theorem safe_method_read_access_witness :
    "GET" ∈ SAFE_METHODS ∧
    canUploadDatasets "GET" (some { id := 4, username := "eng", role := "engineer" }) = true ∧
    canManageAIModels "GET" (some { id := 4, username := "eng", role := "engineer" }) = true ∧
    "POST" ∉ SAFE_METHODS ∧
    canUploadDatasets "POST" (some { id := 4, username := "eng", role := "engineer" }) = false :=
  ⟨by decide,
    ((safe_method_read_access "GET"
        { id := 4, username := "eng", role := "engineer" }).1 (by decide)).1,
    ((safe_method_read_access "GET"
        { id := 4, username := "eng", role := "engineer" }).1 (by decide)).2,
    by decide, by decide⟩

/-- C9: ownership stamping: for a non-admin creating principal, the stored
created_by is the principal, whatever owner value the client submitted. -/
theorem ownership_stamping (validated : SubmittedResource) (user : UserRec)
    (_hna : user.role ≠ "admin") :
    (perform_create validated user).created_by = some user.id := rfl

/-- Witness for C9 at a concrete input: the client-supplied owner 99 is
overwritten with the creating engineer. -/
theorem ownership_stamping_witness :
    ("engineer" : String) ≠ "admin" ∧
    (perform_create { rid := 5, created_by := some 99 }
      { id := 2, username := "eng", role := "engineer" }).created_by = some 2 :=
  ⟨by decide,
    ownership_stamping { rid := 5, created_by := some 99 }
      { id := 2, username := "eng", role := "engineer" } (by decide)⟩

/-- C4: an admin principal deleting the user record with their own id is
always rejected with the dedicated self-deletion error, which is distinct
from every role-insufficiency deny, and the row is never deleted. -/
theorem self_deletion_guard (p target : UserRec)
    (hadmin : p.role = "admin") (hid : target.id = p.id) :
    userManagementDelete (some p) target = DeleteOutcome.selfDeletionError ∧
    (∀ required actual, DeleteOutcome.selfDeletionError ≠
      DeleteOutcome.insufficientRole required actual) ∧
    userManagementDelete (some p) target ≠ DeleteOutcome.deleted := by
  have hres : userManagementDelete (some p) target = DeleteOutcome.selfDeletionError := by
    simp [userManagementDelete, canManageUsers, SAFE_METHODS, hadmin, hid]
  refine ⟨hres, ?_, ?_⟩
  · intro required actual hcontra; cases hcontra
  · rw [hres]; intro hcontra; cases hcontra

/-- Witness for C4 at a concrete input: admin with id 3 deleting user id 3. -/
theorem self_deletion_guard_witness :
    ("admin" : String) = "admin" ∧ (3 : Nat) = 3 ∧
    userManagementDelete (some { id := 3, username := "root", role := "admin" })
      { id := 3, username := "root", role := "admin" } = DeleteOutcome.selfDeletionError :=
  ⟨rfl, rfl,
    (self_deletion_guard { id := 3, username := "root", role := "admin" }
      { id := 3, username := "root", role := "admin" } rfl rfl).1⟩

/-- C5: the registration endpoint is open to the anonymous principal, and
for every role in the closed set, admin included, a registrant submitting
that role with matching passwords obtains a user whose role is exactly the
submitted value. -/
theorem open_registration_stores_submitted_role (nextId : Nat) (d : RegisterData)
    (hrole : d.role ∈ ROLE_CHOICES) (hpw : d.password = d.password2) :
    allowAnyHasPermission none = true ∧
    registerSerializerCreate nextId d =
      RegisterResult.created { id := nextId, username := d.username, role := d.role } := by
  refine ⟨rfl, ?_⟩
  simp [registerSerializerCreate, hrole, hpw]

/-- Witness for C5 at a concrete input: an unauthenticated registrant who
submits the admin role obtains an admin user. -/
theorem open_registration_stores_submitted_role_witness :
    ("admin" : String) ∈ ROLE_CHOICES ∧
    registerSerializerCreate 8
      { username := "mallory", email := "m@x.io", password := "Str0ngPass",
        password2 := "Str0ngPass", role := "admin" } =
      RegisterResult.created { id := 8, username := "mallory", role := "admin" } :=
  ⟨by decide,
    (open_registration_stores_submitted_role 8
      { username := "mallory", email := "m@x.io", password := "Str0ngPass",
        password2 := "Str0ngPass", role := "admin" } (by decide) rfl).2⟩

/-- C6: on the closed role set, the minimum-role check of the source agrees
with the specification hierarchy engineer 1, metallurgist 2, admin 3 under
level comparison; admin passes every threshold and engineer passes only the
engineer threshold. -/
theorem minimum_role_matches_spec_hierarchy (u : UserRec) (M : String)
    (hR : u.role ∈ ROLE_CHOICES) (hM : M ∈ ROLE_CHOICES) :
    (minimumRoleHasPermission (some u) M =
      decide ((roleLevelSpec M).getD 0 ≤ (roleLevelSpec u.role).getD 0)) ∧
    minimumRoleHasPermission (some { u with role := "admin" }) M = true ∧
    (minimumRoleHasPermission (some { u with role := "engineer" }) M = true ↔
      M = "engineer") := by
  simp only [ROLE_CHOICES, List.mem_cons, List.not_mem_nil, or_false] at hR hM
  obtain hR1 | hR1 | hR1 := hR <;> obtain hM1 | hM1 | hM1 := hM <;>
    simp only [minimumRoleHasPermission, hR1, hM1] <;> decide

/-- Witness for C6 at a concrete input: a metallurgist against the engineer
threshold. -/
theorem minimum_role_matches_spec_hierarchy_witness :
    ("metallurgist" : String) ∈ ROLE_CHOICES ∧ ("engineer" : String) ∈ ROLE_CHOICES ∧
    minimumRoleHasPermission
      (some { id := 6, username := "met", role := "metallurgist" }) "engineer" =
      decide ((roleLevelSpec "engineer").getD 0 ≤ (roleLevelSpec "metallurgist").getD 0) :=
  ⟨by decide, by decide,
    (minimum_role_matches_spec_hierarchy
      { id := 6, username := "met", role := "metallurgist" } "engineer"
      (by decide) (by decide)).1⟩

/-- C1 counterexample: the role string intern is outside the closed set,
yet the hierarchy lookup silently yields 0 and the minimum-role check
proceeds to an ordinary boolean decision instead of failing: it denies the
intern against the engineer threshold and even grants access when the
configured minimum role is itself unrecognized. -/
theorem unknown_role_not_rejected_counterexample :
    "intern" ∉ ROLE_CHOICES ∧
    hierarchyGet "intern" = 0 ∧
    minimumRoleHasPermission
      (some { id := 7, username := "mallory", role := "intern" }) "engineer" = false ∧
    minimumRoleHasPermission
      (some { id := 7, username := "mallory", role := "intern" }) "supervisor" = true := by
  decide

/-- C1 amended: for every role string outside the closed set, the lookup
used by the minimum-role check silently defaults to level 0 and the
evaluation proceeds: such a user is denied whenever the configured minimum
role is recognized, and allowed whenever it is itself unrecognized; no
unknown-role failure exists in the code. -/
theorem unknown_role_defaults_to_level_zero (r m : String) (u : UserRec)
    (hr : r ∉ ROLE_CHOICES) (hrole : u.role = r) :
    hierarchyGet r = 0 ∧
    (m ∈ ROLE_CHOICES → minimumRoleHasPermission (some u) m = false) ∧
    (m ∉ ROLE_CHOICES → minimumRoleHasPermission (some u) m = true) := by
  have hz : hierarchyGet r = 0 := hierarchyGet_eq_zero_of_not_mem r hr
  have hu : hierarchyGet u.role = 0 := by rw [hrole]; exact hz
  refine ⟨hz, ?_, ?_⟩
  · intro hm
    simp only [ROLE_CHOICES, List.mem_cons, List.not_mem_nil, or_false] at hm
    obtain hm1 | hm1 | hm1 := hm <;>
      · simp only [minimumRoleHasPermission, hm1, hu]
        decide
  · intro hm
    have hmz : hierarchyGet m = 0 := hierarchyGet_eq_zero_of_not_mem m hm
    simp [minimumRoleHasPermission, hmz, hu]

/-- Witness for the amended C1 at concrete inputs: role intern, recognized
threshold engineer and unrecognized threshold supervisor. -/
theorem unknown_role_defaults_to_level_zero_witness :
    "intern" ∉ ROLE_CHOICES ∧
    hierarchyGet "intern" = 0 ∧
    minimumRoleHasPermission
      (some { id := 9, username := "m2", role := "intern" }) "metallurgist" = false ∧
    "supervisor" ∉ ROLE_CHOICES ∧
    minimumRoleHasPermission
      (some { id := 9, username := "m2", role := "intern" }) "supervisor" = true :=
  ⟨by decide,
    (unknown_role_defaults_to_level_zero "intern" "metallurgist"
      { id := 9, username := "m2", role := "intern" } (by decide) rfl).1,
    (unknown_role_defaults_to_level_zero "intern" "metallurgist"
      { id := 9, username := "m2", role := "intern" } (by decide) rfl).2.1 (by decide),
    by decide,
    (unknown_role_defaults_to_level_zero "intern" "supervisor"
      { id := 9, username := "m2", role := "intern" } (by decide) rfl).2.2 (by decide)⟩

end LCARbac
